import Mathlib

/-!
Verification of the calculation engine of a retirement-planning app
(`streamlit_app.py`).  The engine is a handful of pure functions:
account / allocation / contribution / risk recommenders, a compound-growth
savings projector, and a shortfall solver.  Python floats are modelled as
exact rationals (`ℚ`); Python strings as Lean `String`s; the UI enums as
inductive types.
-/

/-- Employment status, the three options of the UI selectbox
`["Employed", "Self-Employed", "Not Working"]`. -/
inductive Employment where
  | Employed
  | SelfEmployed
  | NotWorking
deriving DecidableEq

/-- Risk comfort level, the three options of the UI radio
`["Low", "Medium", "High"]`. -/
inductive Risk where
  | Low
  | Medium
  | High
deriving DecidableEq

/-- `recommend_account(employment, has_401k, income)` from the source:
an if-chain returning the first matching advice string.  `income is None`
is modelled by `Option ℚ`. -/
def recommend_account (employment : Employment) (has_401k : Bool)
    (income : Option ℚ) : String :=
  if employment = Employment.Employed ∧ has_401k = true then
    "401(k) — contribute at least enough to get your employer match. Consider a Roth IRA for tax-free withdrawals."
  else if employment = Employment.SelfEmployed then
    "SEP IRA or Solo 401(k) — great for business owners."
  else
    match income with
    | none => "Roth IRA (if eligible). If not, consider Traditional IRA or brokerage."
    | some v =>
      if v < 145000 then
        "Roth IRA (if eligible). If not, consider Traditional IRA or brokerage."
      else
        "Traditional IRA or taxable brokerage account."

/-- `recommend_allocation(age, risk)` from the source: base stock percentage
by age bracket, then a risk adjustment, `bond = 100 - stock`. -/
def recommend_allocation (age : ℕ) (risk : Risk) : ℕ × ℕ :=
  let base_stock :=
    if age < 30 then 90
    else if age < 40 then 85
    else if age < 50 then 75
    else if age < 60 then 65
    else 50
  let stock :=
    if risk = Risk.High then min 95 (base_stock + 10)
    else if risk = Risk.Low then max 30 (base_stock - 20)
    else base_stock
  let bond := 100 - stock
  (stock, bond)

/-- Python's built-in `round` (round half to even) on a rational. -/
def python_round (q : ℚ) : ℤ :=
  let f := ⌊q⌋
  let frac := q - f
  if frac < 1 / 2 then f
  else if 1 / 2 < frac then f + 1
  else if f % 2 = 0 then f else f + 1

/-- `contribution_guidance(income)` from the source: generic advice when
income is `None`, otherwise a rounded 10–15 percent monthly range. -/
def contribution_guidance (income : Option ℚ) : String :=
  match income with
  | none =>
      "Try to save 10–15% of your income. If unsure, start with what you can and increase over time."
  | some income =>
      let monthly_10 := python_round ((income * (1 / 10)) / 12)
      let monthly_15 := python_round ((income * (15 / 100)) / 12)
      "Goal: 10–15% of income → about $" ++ toString monthly_10 ++
        "/mo to $" ++ toString monthly_15 ++ "/mo"

/-- The coercion at the income input, `st.number_input(...) or None`:
Python's `or` maps the falsy value `0` to `None`. -/
def income_input (n : ℚ) : Option ℚ :=
  if n = 0 then none else some n

/-- `project_savings(current_savings, monthly_contribution, years,
annual_return)` from the source: the lump sum compounded for `months`
periods, then the loop `for m in range(1, months + 1)` adding
`monthly_contribution * (1 + r) ** (months - m + 1)`; the loop index `m`
is `i + 1` for `i` in `List.range months`. -/
def project_savings (current_savings monthly_contribution : ℚ) (years : ℕ)
    (annual_return : ℚ) : ℚ :=
  let r := annual_return / 100 / 12
  let months := years * 12
  (List.range months).foldl
    (fun fv i => fv + monthly_contribution * (1 + r) ^ (months - (i + 1) + 1))
    (current_savings * (1 + r) ^ months)

/-- The module-level `future_factor` of the shortfall block:
`sum(pow(1 + r, months - m + 1) for m in range(1, months + 1))`. -/
def future_factor (years : ℕ) (annual_return : ℚ) : ℚ :=
  let r := annual_return / 100 / 12
  let months := years * 12
  ∑ m ∈ Finset.Icc 1 months, (1 + r) ^ (months - m + 1)

/-- The `Calculate Savings Projection` button handler: computes
`years = retire_age - age`, rejects a non-positive horizon with the error
message, otherwise projects and, on a shortfall, solves for the extra
monthly contribution.  The result is the projected value together with
`some (shortfall, needed_extra)` when projected < goal. -/
def calc_projection (age retire_age : ℤ)
    (current_savings monthly_contribution expected_return goal : ℚ) :
    Except String (ℚ × Option (ℚ × ℚ)) :=
  let years := retire_age - age
  if years ≤ 0 then
    Except.error "⚠️ Retirement age must be greater than current age."
  else
    let projected :=
      project_savings current_savings monthly_contribution years.toNat expected_return
    if projected < goal then
      let shortfall := goal - projected
      let needed_extra := shortfall / future_factor years.toNat expected_return
      Except.ok (projected, some (shortfall, needed_extra))
    else
      Except.ok (projected, none)

/-- Modelled from the spec (section 4.5): the projected value as the closed
summation formula, `currentSavings × (1+r)^months` plus the sum over
`m = 1..months` of `monthlyContribution × (1+r)^(months−m+1)`. -/
def projectSavings_spec (currentSavings monthlyContribution : ℚ) (years : ℕ)
    (annualReturnPercent : ℚ) : ℚ :=
  let r := annualReturnPercent / 100 / 12
  let months := years * 12
  currentSavings * (1 + r) ^ months +
    ∑ m ∈ Finset.Icc 1 months, monthlyContribution * (1 + r) ^ (months - m + 1)

/-- Modelled from the spec (section 4.1): base stock percentage by half-open
age bracket, adjusted by risk tolerance, bond percentage the complement. -/
def recommendAllocation_spec (age : ℕ) (risk : Risk) : ℕ × ℕ :=
  let base :=
    if age < 30 then 90
    else if age < 40 then 85
    else if age < 50 then 75
    else if age < 60 then 65
    else 50
  let stock :=
    match risk with
    | Risk.High => min 95 (base + 10)
    | Risk.Low => max 30 (base - 20)
    | Risk.Medium => base
  (stock, 100 - stock)

/-! ### Closed forms for the projector and the future-value factor -/

lemma foldl_add_sum (g : ℕ → ℚ) (l : List ℕ) (a : ℚ) :
    l.foldl (fun acc x => acc + g x) a = a + (l.map g).sum := by
  induction l generalizing a with
  | nil => simp
  | cons x xs ih => simp [ih, add_assoc]

lemma sum_map_range (g : ℕ → ℚ) (n : ℕ) :
    ((List.range n).map g).sum = ∑ i ∈ Finset.range n, g i := by
  induction n with
  | zero => simp
  | succ n ih => simp [List.range_succ, Finset.sum_range_succ, ih]

lemma sum_pow_reflect (x : ℚ) (M : ℕ) :
    ∑ i ∈ Finset.range M, x ^ (M - i) = ∑ j ∈ Finset.range M, x ^ (j + 1) := by
  rw [← Finset.sum_range_reflect (fun j => x ^ (j + 1)) M]
  refine Finset.sum_congr rfl fun i hi => ?_
  have hiM := Finset.mem_range.mp hi
  congr 1
  omega

lemma sum_Icc_pow (x : ℚ) (M : ℕ) :
    ∑ m ∈ Finset.Icc 1 M, x ^ (M - m + 1) =
      ∑ j ∈ Finset.range M, x ^ (j + 1) := by
  rw [← Nat.Ico_succ_right, Finset.sum_Ico_eq_sum_range]
  simp only [Nat.succ_sub_one]
  rw [← sum_pow_reflect]
  refine Finset.sum_congr rfl fun i hi => ?_
  have hiM := Finset.mem_range.mp hi
  congr 1
  omega

/-- The projector equals `c·(1+r)^M + mc·∑_{j<M} (1+r)^(j+1)` with
`M = 12·years`. -/
lemma project_savings_eq (c mc : ℚ) (y : ℕ) (a : ℚ) :
    project_savings c mc y a =
      c * (1 + a / 100 / 12) ^ (y * 12) +
        mc * ∑ j ∈ Finset.range (y * 12), (1 + a / 100 / 12) ^ (j + 1) := by
  rw [show project_savings c mc y a =
      (List.range (y * 12)).foldl
        (fun fv i => fv + mc * (1 + a / 100 / 12) ^ (y * 12 - (i + 1) + 1))
        (c * (1 + a / 100 / 12) ^ (y * 12)) from rfl]
  rw [foldl_add_sum (fun i => mc * (1 + a / 100 / 12) ^ (y * 12 - (i + 1) + 1)),
    sum_map_range]
  congr 1
  rw [← Finset.mul_sum]
  congr 1
  rw [← sum_pow_reflect]
  refine Finset.sum_congr rfl fun i hi => ?_
  have hiM := Finset.mem_range.mp hi
  congr 1
  omega

/-- The shortfall block's future factor equals `∑_{j<M} (1+r)^(j+1)`. -/
lemma future_factor_eq (y : ℕ) (a : ℚ) :
    future_factor y a =
      ∑ j ∈ Finset.range (y * 12), (1 + a / 100 / 12) ^ (j + 1) := by
  exact sum_Icc_pow (1 + a / 100 / 12) (y * 12)

/-- The spec formula also equals the same closed form. -/
lemma projectSavings_spec_eq (c mc : ℚ) (y : ℕ) (a : ℚ) :
    projectSavings_spec c mc y a =
      c * (1 + a / 100 / 12) ^ (y * 12) +
        mc * ∑ j ∈ Finset.range (y * 12), (1 + a / 100 / 12) ^ (j + 1) := by
  rw [show projectSavings_spec c mc y a =
      c * (1 + a / 100 / 12) ^ (y * 12) +
        ∑ m ∈ Finset.Icc 1 (y * 12),
          mc * (1 + a / 100 / 12) ^ (y * 12 - m + 1) from rfl]
  congr 1
  rw [← Finset.mul_sum, sum_Icc_pow]

/-- With a zero rate the projector degenerates to simple accumulation. -/
lemma project_savings_zero_rate (c mc : ℚ) (y : ℕ) :
    project_savings c mc y 0 = c + mc * (y * 12 : ℕ) := by
  rw [project_savings_eq]
  norm_num

/-! ### Claim theorems -/

/-- C1: for nonnegative savings, contribution and return and a positive
horizon, `project_savings` returns exactly
`currentSavings·(1+r)^months + ∑_{m=1}^{months} monthlyContribution·(1+r)^(months−m+1)`
with `r = annualReturnPercent/100/12` and `months = 12·years`
(the annuity-due convention of the spec). -/
theorem projector_matches_spec_formula (c mc : ℚ) (y : ℕ) (a : ℚ)
    (hc : 0 ≤ c) (hmc : 0 ≤ mc) (hy : 0 < y) (ha : 0 ≤ a) :
    project_savings c mc y a = projectSavings_spec c mc y a := by
  rw [project_savings_eq, projectSavings_spec_eq]

theorem projector_matches_spec_formula_witness :
    ((0:ℚ) ≤ 100 ∧ (0:ℚ) ≤ 10 ∧ 0 < 1 ∧ (0:ℚ) ≤ 6) ∧
      project_savings 100 10 1 6 = projectSavings_spec 100 10 1 6 :=
  ⟨⟨by norm_num, by norm_num, by norm_num, by norm_num⟩,
    projector_matches_spec_formula 100 10 1 6 (by norm_num) (by norm_num)
      (by norm_num) (by norm_num)⟩

/-- C2: round-trip of the shortfall solver and the projector.  When the
projection falls short of the goal, adding the solved
`extra = (goal − projected) / future_factor` to the monthly contribution
and projecting again reaches the goal (in exact arithmetic, with equality,
hence certainly within any floating-point tolerance). -/
theorem shortfall_roundtrip (c mc : ℚ) (y : ℕ) (a goal : ℚ)
    (hy : 0 < y) (ha : 0 ≤ a)
    (hshort : project_savings c mc y a < goal) :
    goal ≤
      project_savings c
        (mc + (goal - project_savings c mc y a) / future_factor y a) y a := by
  have hr : (0:ℚ) ≤ a / 100 / 12 := by positivity
  have hF : 0 < future_factor y a := by
    rw [future_factor_eq]
    apply Finset.sum_pos
    · intro i _
      positivity
    · exact Finset.nonempty_range_iff.mpr (by omega)
  rw [future_factor_eq] at hF
  simp only [project_savings_eq, future_factor_eq]
  set S := ∑ j ∈ Finset.range (y * 12), (1 + a / 100 / 12) ^ (j + 1) with hSdef
  set P := (1 + a / 100 / 12) ^ (y * 12) with hPdef
  have hS0 : S ≠ 0 := ne_of_gt hF
  have key : c * P + (mc + (goal - (c * P + mc * S)) / S) * S = goal := by
    field_simp
    ring
  exact le_of_eq key.symm

theorem shortfall_roundtrip_witness :
    ((0 : ℕ) < 1 ∧ (0:ℚ) ≤ 0 ∧ project_savings 100 10 1 0 < 1000) ∧
      1000 ≤
        project_savings 100
          (10 + ((1000:ℚ) - project_savings 100 10 1 0) / future_factor 1 0)
          1 0 :=
  ⟨⟨by norm_num, le_refl 0, by rw [project_savings_zero_rate]; norm_num⟩,
    shortfall_roundtrip 100 10 1 0 1000 (by norm_num) (le_refl 0)
      (by rw [project_savings_zero_rate]; norm_num)⟩

/-- C3: with a zero annual return the projector degenerates to simple
accumulation, `project_savings S M Y 0 = S + M·Y·12` exactly. -/
theorem zero_return_simple_accumulation (S M : ℚ) (Y : ℕ)
    (hS : 0 ≤ S) (hM : 0 ≤ M) (hY : 0 < Y) :
    project_savings S M Y 0 = S + M * ((Y : ℚ) * 12) := by
  rw [project_savings_zero_rate]
  push_cast
  ring

theorem zero_return_simple_accumulation_witness :
    ((0:ℚ) ≤ 5 ∧ (0:ℚ) ≤ 7 ∧ 0 < 2) ∧
      project_savings 5 7 2 0 = 5 + 7 * ((2 : ℚ) * 12) :=
  ⟨⟨by norm_num, by norm_num, by norm_num⟩,
    zero_return_simple_accumulation 5 7 2 (by norm_num) (by norm_num)
      (by norm_num)⟩

/-- C4: for every age from 18 to 100 and every risk tolerance, the
allocation recommender agrees with the spec's bracket-and-adjust rule:
base stock percentage by half-open age bracket (90 / 85 / 75 / 65 / 50),
then `min 95 (base+10)` for High, `max 30 (base−20)` for Low, `base`
for Medium, with the bond percentage the complement to 100. -/
theorem allocation_matches_spec (age : ℕ) (risk : Risk)
    (h1 : 18 ≤ age) (h2 : age ≤ 100) :
    recommend_allocation age risk = recommendAllocation_spec age risk := by
  cases risk <;> rfl

theorem allocation_matches_spec_witness :
    (18 ≤ 30 ∧ 30 ≤ 100) ∧
      recommend_allocation 30 Risk.High = recommendAllocation_spec 30 Risk.High :=
  ⟨⟨by norm_num, by norm_num⟩,
    allocation_matches_spec 30 Risk.High (by norm_num) (by norm_num)⟩

/-- C5: allocation invariants — for every age from 18 to 100 and every
risk tolerance, the stock and bond percentages sum to 100 and the stock
percentage lies in [30, 95]. -/
theorem allocation_invariants (age : ℕ) (risk : Risk)
    (h1 : 18 ≤ age) (h2 : age ≤ 100) :
    (recommend_allocation age risk).1 + (recommend_allocation age risk).2 = 100 ∧
      30 ≤ (recommend_allocation age risk).1 ∧
        (recommend_allocation age risk).1 ≤ 95 := by
  interval_cases age <;> cases risk <;> decide

theorem allocation_invariants_witness :
    (18 ≤ 45 ∧ 45 ≤ 100) ∧
      ((recommend_allocation 45 Risk.Low).1 + (recommend_allocation 45 Risk.Low).2 = 100 ∧
        30 ≤ (recommend_allocation 45 Risk.Low).1 ∧
          (recommend_allocation 45 Risk.Low).1 ≤ 95) :=
  ⟨⟨by norm_num, by norm_num⟩,
    allocation_invariants 45 Risk.Low (by norm_num) (by norm_num)⟩

/-- C6: first-match rule order of the account recommender — an Employed
user with 401(k) access always receives the employer-match advice, for
every income value including incomes at or above 145000 (the later income
rules are never consulted). -/
theorem employed_401k_first_rule (income : Option ℚ) :
    recommend_account Employment.Employed true income =
      "401(k) — contribute at least enough to get your employer match. Consider a Roth IRA for tax-free withdrawals." :=
  rfl

/-- C7: contribution guidance for zero or absent income.  The input
coercion maps income 0 to `none`, and the guidance on `none` is the
generic save-10–15% text, not a computed dollar range; the function is
total so no exception can be raised. -/
theorem unknown_income_generic_guidance :
    contribution_guidance (income_input 0) =
        "Try to save 10–15% of your income. If unsure, start with what you can and increase over time." ∧
      contribution_guidance none =
        "Try to save 10–15% of your income. If unsure, start with what you can and increase over time." :=
  ⟨rfl, rfl⟩

/-- C8: monotonicity of the projector.  With all inputs nonnegative and a
positive horizon, increasing any one of current savings, monthly
contribution, years, or annual return (holding the others fixed) never
decreases the projected value. -/
theorem projector_monotone (c c' mc mc' : ℚ) (y y' : ℕ) (a a' : ℚ)
    (hc : 0 ≤ c) (hmc : 0 ≤ mc) (ha : 0 ≤ a) (hy : 0 < y)
    (hcc : c ≤ c') (hmm : mc ≤ mc') (hyy : y ≤ y') (haa : a ≤ a') :
    project_savings c mc y a ≤ project_savings c' mc y a ∧
      project_savings c mc y a ≤ project_savings c mc' y a ∧
        project_savings c mc y a ≤ project_savings c mc y' a ∧
          project_savings c mc y a ≤ project_savings c mc y a' := by
  have hr : (0:ℚ) ≤ a / 100 / 12 := by positivity
  have hx1 : (1:ℚ) ≤ 1 + a / 100 / 12 := by linarith
  have hx0 : (0:ℚ) ≤ 1 + a / 100 / 12 := by linarith
  have hxx : 1 + a / 100 / 12 ≤ 1 + a' / 100 / 12 := by gcongr
  have hP0 : (0:ℚ) ≤ (1 + a / 100 / 12) ^ (y * 12) := by positivity
  have hS0 : (0:ℚ) ≤
      ∑ j ∈ Finset.range (y * 12), (1 + a / 100 / 12) ^ (j + 1) := by
    positivity
  have hM : y * 12 ≤ y' * 12 := by omega
  refine ⟨?_, ?_, ?_, ?_⟩ <;> simp only [project_savings_eq]
  · exact add_le_add_right (mul_le_mul_of_nonneg_right hcc hP0) _
  · exact add_le_add_left (mul_le_mul_of_nonneg_right hmm hS0) _
  · refine add_le_add (mul_le_mul_of_nonneg_left ?_ hc)
      (mul_le_mul_of_nonneg_left ?_ hmc)
    · exact pow_le_pow_right hx1 hM
    · exact Finset.sum_le_sum_of_subset_of_nonneg
        (Finset.range_subset.mpr hM) (fun i _ _ => by positivity)
  · refine add_le_add (mul_le_mul_of_nonneg_left ?_ hc)
      (mul_le_mul_of_nonneg_left ?_ hmc)
    · exact pow_le_pow_left hx0 hxx _
    · exact Finset.sum_le_sum fun i _ => pow_le_pow_left hx0 hxx _

theorem projector_monotone_witness :
    ((0:ℚ) ≤ 1 ∧ (0:ℚ) ≤ 3 ∧ (0:ℚ) ≤ 0 ∧ (0 : ℕ) < 1 ∧
        (1:ℚ) ≤ 2 ∧ (3:ℚ) ≤ 4 ∧ (1 : ℕ) ≤ 2 ∧ (0:ℚ) ≤ 6) ∧
      (project_savings 1 3 1 0 ≤ project_savings 2 3 1 0 ∧
        project_savings 1 3 1 0 ≤ project_savings 1 4 1 0 ∧
          project_savings 1 3 1 0 ≤ project_savings 1 3 2 0 ∧
            project_savings 1 3 1 0 ≤ project_savings 1 3 1 6) :=
  ⟨⟨by norm_num, by norm_num, le_refl 0, by norm_num, by norm_num,
      by norm_num, by norm_num, by norm_num⟩,
    projector_monotone 1 2 3 4 1 2 0 6 (by norm_num) (by norm_num) (le_refl 0)
      (by norm_num) (by norm_num) (by norm_num) (by norm_num) (by norm_num)⟩

/-- C9: invalid horizon.  Whenever the target retirement age is at most the
current age (so `years ≤ 0`), the projection handler rejects the
computation with the error message and returns no projected value and no
shortfall solve. -/
theorem invalid_horizon_rejected (age retire_age : ℤ) (c mc e g : ℚ)
    (h : retire_age ≤ age) :
    calc_projection age retire_age c mc e g =
      Except.error "⚠️ Retirement age must be greater than current age." := by
  have h0 : retire_age - age ≤ 0 := by omega
  simp only [calc_projection]
  rw [if_pos h0]

theorem invalid_horizon_rejected_witness :
    ((39 : ℤ) ≤ 40) ∧
      calc_projection 40 39 10000 500 6 1000000 =
        Except.error "⚠️ Retirement age must be greater than current age." :=
  ⟨by norm_num, invalid_horizon_rejected 40 39 10000 500 6 1000000 (by norm_num)⟩

/-- C10: the projector is total outside its `years > 0` precondition — at
`years = 0` the contribution loop is empty and the result is exactly the
current savings; the projector itself raises no error for a non-positive
horizon. -/
theorem projector_total_zero_years (c mc a : ℚ) :
    project_savings c mc 0 a = c := by
  simp [project_savings_eq]
